import Mathlib

/-!
Verification of the hgc-test-infrastructure run-tracking service.

The Python sources are shallowly embedded: DynamoDB items are association
lists of attribute values, the store is a list of items, and each handler
fragment relevant to a claim is a pure Lean function mirroring the Python
control flow.  External services (DynamoDB itself, GitHub's HTTP API,
Python's `datetime.fromisoformat`) are modelled from their documented
behaviour at the narrow points where the code touches them.
-/

set_option maxRecDepth 4000
set_option linter.unusedVariables false

namespace HGC

/-- Attribute values as they occur in the service's DynamoDB items:
strings, integers, and Python `None` (DynamoDB NULL). -/
inductive AttrVal where
  | str (s : String)
  | int (i : Int)
  | null
deriving DecidableEq, Repr

/-- A DynamoDB item (or a Python dict of attributes): an association list
from attribute names to values.  Python dicts have unique keys; where that
matters a theorem carries a `Nodup` hypothesis. -/
abbrev Item := List (String × AttrVal)

/-- Stringification of an attribute value as a Python f-string would render
it (`f"STATUS#{value}"`): strings verbatim, ints decimal, `None` as "None". -/
def attrDisplay : AttrVal → String
  | .str s => s
  | .int i => toString i
  | .null => "None"

/-- Lookup of an attribute by name, first match (Python `dict[k]` / `.get(k)`). -/
def getAttr (it : Item) (k : String) : Option AttrVal :=
  match it with
  | [] => none
  | kv :: rest => if kv.1 = k then some kv.2 else getAttr rest k

/-- Set an attribute: replace the first binding of the name, else append.
Models both Python dict assignment and a DynamoDB `SET` on one path. -/
def setAttr (it : Item) (k : String) (v : AttrVal) : Item :=
  match it with
  | [] => [(k, v)]
  | kv :: rest => if kv.1 = k then (k, v) :: rest else kv :: setAttr rest k v

/-- The DynamoDB table: a list of items. -/
abbrev Store := List Item

/-! ### `DynamoDBClient.put_test_run` (src/utils/dynamodb.py lines 17-59)

The write-time clock (`datetime.now(timezone.utc).isoformat()`) and the TTL
(`time.time() + 90 days`) are impure; they enter the model as the explicit
arguments `now` and `ttl`. -/

/-- The always-present attributes of the stored item (dynamodb.py lines 27-43). -/
def putBase (now : String) (ttl : Int) (b r env status gh cm ac wf rp : AttrVal) : Item :=
  [("pk", .str ("BRAND#" ++ attrDisplay b)),
   ("sk", .str ("RUN#" ++ now ++ "#" ++ attrDisplay r)),
   ("gsi1pk", .str ("STATUS#" ++ attrDisplay status)),
   ("gsi1sk", .str ("TIMESTAMP#" ++ now)),
   ("runId", r),
   ("brand", b),
   ("environment", env),
   ("status", status),
   ("timestamp", .str now),
   ("githubRunId", gh),
   ("commit", cm),
   ("actor", ac),
   ("workflow", wf),
   ("repository", rp),
   ("ttl", .int ttl)]

/-- One optional attribute copied verbatim when present (dynamodb.py lines 45-53). -/
def optEntry (run_data : Item) (k : String) : Item :=
  match getAttr run_data k with
  | some v => [(k, v)]
  | none => []

/-- The conditionally-appended attributes of the stored item. -/
def putTail (run_data : Item) : Item :=
  optEntry run_data "duration" ++ optEntry run_data "tests" ++
  optEntry run_data "reportUrl" ++ optEntry run_data "artifacts"

/-- Builds the item stored by `put_test_run`.  Returns `none` when the
mandatory fields `brand`, `runId` or `environment` are absent (the Python
code would raise `KeyError` before reaching the table write).  The
provenance attributes are `run_data.get(...)` with `None` default. -/
def put_test_run (now : String) (ttl : Int) (run_data : Item) : Option Item :=
  match getAttr run_data "brand", getAttr run_data "runId",
      getAttr run_data "environment" with
  | some b, some r, some env =>
    let status := (getAttr run_data "status").getD (.str "pending")
    some (putBase now ttl b r env status
      ((getAttr run_data "githubRunId").getD .null)
      ((getAttr run_data "commit").getD .null)
      ((getAttr run_data "actor").getD .null)
      ((getAttr run_data "workflow").getD .null)
      ((getAttr run_data "repository").getD .null) ++ putTail run_data)
  | _, _, _ => none

/-! ### `DynamoDBClient.get_test_run` (src/utils/dynamodb.py lines 61-80) -/

/-- Whether the first character list begins with the second
(`begins_with(sk, 'RUN#')`). -/
def charsBeginWith : List Char → List Char → Bool
  | _, [] => true
  | [], _ :: _ => false
  | c :: cs, p :: ps => c == p && charsBeginWith cs ps

/-- The query condition: partition key `BRAND#<brand>`, sort key beginning
with `RUN#`, filtered on the `runId` attribute. -/
def itemMatches (brand run_id : String) (it : Item) : Bool :=
  (getAttr it "pk" == some (.str ("BRAND#" ++ brand))) &&
  (match getAttr it "sk" with
   | some (.str s) => charsBeginWith s.data "RUN#".data
   | _ => false) &&
  (getAttr it "runId" == some (.str run_id))

/-- Returns the first matching item, or `none` ("not found"). -/
def get_test_run (store : Store) (brand run_id : String) : Option Item :=
  (store.filter (itemMatches brand run_id)).head?

/-! ### `DynamoDBClient.update_test_run_status` (src/utils/dynamodb.py lines 166-207) -/

/-- Result shape of the update call: the Python dict
`{'success': bool, 'item'?: ..., 'error'?: str}`. -/
structure UpdateResult where
  success : Bool
  item : Option Item
  error : Option String
deriving DecidableEq, Repr

/-- The key attributes the code refuses to copy from `additional_data`
(`if key not in ['pk', 'sk', 'gsi1pk', 'gsi1sk']`). -/
def structuralKeys : List String := ["pk", "sk", "gsi1pk", "gsi1sk"]

/-- The document paths named by the update expression
`SET #status = :status, gsi1pk = :gsi1pk, #k1 = :k1, ...`. -/
def updatePaths (extras : Item) : List String :=
  "status" :: "gsi1pk" :: extras.map (fun kv => kv.1)

/-- Whether a path list names the same document path twice. -/
def hasDupPaths : List String → Bool
  | [] => false
  | p :: rest => rest.contains p || hasDupPaths rest

/-- Applies the update expression's assignments to the stored item. -/
def applyUpdate (it : Item) (status : String) (extras : Item) : Item :=
  let it1 := setAttr it "status" (.str status)
  let it2 := setAttr it1 "gsi1pk" (.str ("STATUS#" ++ status))
  extras.foldl (fun acc kv => setAttr acc kv.1 kv.2) it2

/-- Models `update_test_run_status`: resolve the record via `get_test_run`
("not found" when absent), then issue one `update_item` setting `status`,
the mirrored `gsi1pk`, and every `additional_data` entry whose name is not
a structural key.  DynamoDB rejects an update expression in which the same
document path occurs twice ("Two document paths overlap with each other"),
so an `additional_data` carrying a `status` entry — which duplicates the
`#status = :status` assignment — makes the external call raise, which the
code catches and reports as a failed update with the store unchanged. -/
def update_test_run_status (store : Store) (brand run_id status : String)
    (additional : Item) : UpdateResult × Store :=
  match get_test_run store brand run_id with
  | none => ({ success := false, item := none, error := some "Test run not found" }, store)
  | some existing =>
    let extras := additional.filter (fun kv => !(structuralKeys.contains kv.1))
    if hasDupPaths (updatePaths extras) then
      ({ success := false, item := none,
         error := some "ValidationException: Two document paths overlap with each other" }, store)
    else
      let updated := applyUpdate existing status extras
      let store' := store.map (fun it =>
        if getAttr it "pk" == getAttr existing "pk" &&
           getAttr it "sk" == getAttr existing "sk" then updated else it)
      ({ success := true, item := some updated, error := none }, store')

/-! ### Webhook handler (src/handlers/webhook.py)

The fragments below mirror `handler` stage by stage for `workflow_run`
events.  The HMAC computation lives in Python's `hmac`/`hashlib` standard
library behind `GitHubClient.verify_webhook_signature`; it enters the model
as an oracle argument `verify : body → signature → secret → Bool`. -/

/-- Outcome of the signature check stage (webhook.py lines 52-62). -/
inductive WebhookAuth where
  | reject401
  | proceed
deriving DecidableEq, Repr

/-- The signature gate: the Python code runs the verification only under
`if webhook_secret and signature:`, i.e. when a secret is configured AND a
signature header arrived; in every other case the request proceeds. -/
def webhook_signature_gate (secret : Option String) (signature : Option String)
    (body : String) (verify : String → String → String → Bool) : WebhookAuth :=
  match secret, signature with
  | some sec, some sig => if verify body sig sec then .proceed else .reject401
  | _, _ => .proceed

/-- The `status_mapping` dict of webhook.py lines 91-98. -/
def status_mapping : List (String × String) :=
  [("success", "passed"), ("failure", "failed"), ("cancelled", "cancelled"),
   ("skipped", "cancelled"), ("timed_out", "failed"), ("action_required", "failed")]

/-- models `status_mapping.get(conclusion, 'failed')` (webhook.py line 100);
the conclusion may be absent (`None`). -/
def mapConclusion (conclusion : Option String) : String :=
  match conclusion with
  | some c => (((status_mapping.find? (fun kv => kv.1 == c)).map (fun kv => kv.2)).getD "failed")
  | none => "failed"

/-! ### ISO-8601 timestamp parsing

Modelled from the spec: the webhook handler computes its duration with
`datetime.fromisoformat(ts.replace('Z', '+00:00'))`, a Python standard
library function that is not part of this repository.  The model below
covers its behaviour on the second-resolution, zone-aware timestamps the
CI service sends (`YYYY-MM-DDTHH:MM:SS` followed by `Z` or `±HH:MM`),
returning seconds on a proleptic-Gregorian timeline so that differences of
parsed values agree with `(end - start).total_seconds()`. -/

def isDigitChar (c : Char) : Bool := '0' ≤ c && c ≤ '9'

def digitVal (c : Char) : Nat := c.toNat - 48

/-- Days from 0000-03-01-based civil epoch to 1970-01-01 (the standard
days-from-civil algorithm). -/
def daysFromCivil (y m d : Nat) : Int :=
  let y' := if m ≤ 2 then y - 1 else y
  let era := y' / 400
  let yoe := y' % 400
  let mp := (m + 9) % 12
  let doy := (153 * mp + 2) / 5 + d - 1
  let doe := yoe * 365 + yoe / 4 - yoe / 100 + doy
  ((era * 146097 + doe : Nat) : Int) - 719468

def isLeapYear (y : Nat) : Bool :=
  (y % 4 == 0 && y % 100 != 0) || y % 400 == 0

def daysInMonth (y m : Nat) : Nat :=
  match m with
  | 1 => 31 | 2 => if isLeapYear y then 29 else 28 | 3 => 31 | 4 => 30
  | 5 => 31 | 6 => 30 | 7 => 31 | 8 => 31 | 9 => 30 | 10 => 31
  | 11 => 30 | 12 => 31 | _ => 0

/-- Parses the trailing timezone designator: `Z` or `±HH:MM`, giving the
offset in seconds. -/
def parseTzOffset (rest : List Char) : Option Int :=
  match rest with
  | ['Z'] => some 0
  | [sgn, a, b, ':', c, d] =>
    if (sgn = '+' || sgn = '-') && [a, b, c, d].all isDigitChar then
      let hh := 10 * digitVal a + digitVal b
      let mm := 10 * digitVal c + digitVal d
      if hh < 24 && mm < 60 then
        let off : Int := hh * 3600 + mm * 60
        some (if sgn = '+' then off else -off)
      else none
    else none
  | _ => none

/-- Parses a second-resolution zone-aware ISO-8601 timestamp to absolute
seconds (instant on the UTC timeline). -/
def parseTs (s : String) : Option Int :=
  match s.data with
  | y1 :: y2 :: y3 :: y4 :: '-' :: m1 :: m2 :: '-' :: d1 :: d2 :: 'T' ::
      h1 :: h2 :: ':' :: n1 :: n2 :: ':' :: s1 :: s2 :: rest =>
    if [y1, y2, y3, y4, m1, m2, d1, d2, h1, h2, n1, n2, s1, s2].all isDigitChar then
      let y := 1000 * digitVal y1 + 100 * digitVal y2 + 10 * digitVal y3 + digitVal y4
      let mo := 10 * digitVal m1 + digitVal m2
      let d := 10 * digitVal d1 + digitVal d2
      let h := 10 * digitVal h1 + digitVal h2
      let mi := 10 * digitVal n1 + digitVal n2
      let se := 10 * digitVal s1 + digitVal s2
      if 1 ≤ y && 1 ≤ mo && mo ≤ 12 && 1 ≤ d && d ≤ daysInMonth y mo &&
         h < 24 && mi < 60 && se < 60 then
        match parseTzOffset rest with
        | some off =>
          some (daysFromCivil y mo d * 86400 + (h * 3600 + mi * 60 + se : Nat) - off)
        | none => none
      else none
    else none
  | _ => none

/-- The duration computation of webhook.py lines 102-111: present only when
both remote timestamps are present and both parse, in which case it is the
whole-second difference end minus start. -/
def calcDuration (created_at updated_at : Option String) : Option Int :=
  match created_at, updated_at with
  | some c, some u =>
    match parseTs c, parseTs u with
    | some a, some b => some (b - a)
    | _, _ => none
  | _, _ => none

/-- The `update_data` dict built by webhook.py lines 146-156.  The guard
`if duration:` is Python truthiness: the key is added only when the
computed duration is neither `None` nor zero. -/
def webhookUpdateData (final_status github_run_id : String)
    (conclusion workflow_name : Option String) (run_number : Option Int)
    (updated_at : Option String) (duration : Option Int) : Item :=
  let optStr : Option String → AttrVal := fun o => match o with
    | some s => .str s
    | none => .null
  let base : Item :=
    [("status", .str final_status),
     ("githubRunId", .str github_run_id),
     ("conclusion", optStr conclusion),
     ("workflowName", optStr workflow_name),
     ("runNumber", match run_number with | some n => .int n | none => .null),
     ("updatedAt", optStr updated_at)]
  match duration with
  | some d => if d ≠ 0 then base ++ [("duration", .int d)] else base
  | none => base

/-! ### Get-results handler (src/handlers/get_results.py, src/api.py get_results)

Both entry points share the same artifact logic: artifacts are fetched from
object storage only when the stored status lies in a fixed list, and a
fetch failure degrades to an embedded error object instead of failing the
request.  The S3 round-trip enters the model as an `Except`-valued oracle. -/

/-- The status list guarding artifact resolution
(`if test_run['status'] in ['passed', 'failed', 'completed']:`,
get_results.py line 102 and api.py line 371). -/
def artifactStatuses : List String := ["passed", "failed", "completed"]

/-- Modelled from the spec: the spec's glossary defines a terminal status
as passed, failed, cancelled, or completed.  Kept separate from
`artifactStatuses` so the two can be compared. -/
def specTerminalStatuses : List String := ["passed", "failed", "cancelled", "completed"]

/-- The `artifacts` field of the get-results response body. -/
inductive ArtifactsField where
  | nullField
  | resolved (a : AttrVal)
  | errObj (details : String)
deriving DecidableEq, Repr

/-- Builds the `artifacts` field: `None` unless the stored status is in
`artifactStatuses`; otherwise the S3 result, degraded to an error object
on failure (get_results.py lines 97-124). -/
def get_results_artifacts (run : Item) (fetch : Except String AttrVal) : ArtifactsField :=
  let statusInList := match getAttr run "status" with
    | some (.str st) => artifactStatuses.contains st
    | _ => false
  if statusInList then
    match fetch with
    | .ok a => .resolved a
    | .error e => .errObj e
  else .nullField

/-! ### Timestamp-to-path normalization (get_results.py line 107, api.py line 375)

`iso.replace('-', '').replace(':', '').replace('T', '_').replace('Z', '')[:15]`.
Each `str.replace` here has a single-character pattern, so it is a
per-character removal (empty replacement) or substitution. -/

/-- Removes every occurrence of one character (`str.replace(c, '')`). -/
def removeChar (target : Char) : List Char → List Char
  | [] => []
  | c :: rest => if c = target then removeChar target rest else c :: removeChar target rest

/-- Substitutes one character for another (`str.replace(a, b)` with
single-character arguments). -/
def substChar (a b : Char) : List Char → List Char
  | [] => []
  | c :: rest => (if c = a then b else c) :: substChar a b rest

def normalizeChars (l : List Char) : List Char :=
  (removeChar 'Z' (substChar 'T' '_' (removeChar ':' (removeChar '-' l)))).take 15

/-- The timestamp-to-path transformation. -/
def timestamp_for_s3 (s : String) : String :=
  ⟨normalizeChars s.data⟩

/-- Modelled from the spec: a decidable validity check for second-resolution
ISO-8601 timestamps — `YYYY-MM-DDTHH:MM:SS` followed by `Z` or a `±HH:MM`
offset — used to express the spec's "for any valid ISO-8601
second-resolution input". -/
def isSecondResIso (s : String) : Bool :=
  (parseTs s).isSome

/-- Renders a canonical UTC second-resolution timestamp
`YYYY-MM-DDTHH:MM:SSZ` from its six numeric fields. -/
def pad2 (n : Nat) : List Char := [Nat.digitChar (n / 10), Nat.digitChar (n % 10)]

def pad4 (n : Nat) : List Char :=
  [Nat.digitChar (n / 1000), Nat.digitChar (n / 100 % 10),
   Nat.digitChar (n / 10 % 10), Nat.digitChar (n % 10)]

def renderIsoZ (y mo d h mi s : Nat) : String :=
  ⟨pad4 y ++ ['-'] ++ pad2 mo ++ ['-'] ++ pad2 d ++ ['T'] ++ pad2 h ++
    [':'] ++ pad2 mi ++ [':'] ++ pad2 s ++ ['Z']⟩

/-- The compact 15-character segment `YYYYMMDD_HHMMSS`. -/
def compactSeg (y mo d h mi s : Nat) : String :=
  ⟨pad4 y ++ pad2 mo ++ pad2 d ++ ['_'] ++ pad2 h ++ pad2 mi ++ pad2 s⟩

/-! ### Trigger entry points (src/api.py trigger_tests, src/handlers/trigger_tests.py)

Each entry point is modelled as a trace of the externally visible side
effects it performs, in order, together with its response.  Store and
GitHub round-trips are oracles (`putOk`, `dispatchOk`, `updateOk`). -/

/-- One side effect of a trigger entry point. -/
inductive TriggerEv where
  | putRecord (status : String)
  | dispatchWorkflow
  | updateRun (status : String) (additional : Item)
deriving DecidableEq, Repr

def valid_brands : List String := ["mweb", "webafrica"]

/-- Environments accepted by the FastAPI endpoint (api.py line 221). -/
def api_valid_environments : List String := ["prod", "staging"]

/-- Environments accepted by the Lambda handler (trigger_tests.py line 60). -/
def lambda_valid_environments : List String := ["prod", "staging", "dev"]

/-- Response body of the FastAPI trigger endpoint (api.py lines 302-309).
`githubRunId` is `github_result.get('run_id')`; `GitHubClient.trigger_workflow`
returns no `run_id` key, so the field is always `None`. -/
structure TriggerResponse where
  runId : String
  brand : String
  environment : String
  status : String
  githubRunId : Option String
  message : String
deriving DecidableEq, Repr

/-- models api.py `trigger_tests` (lines 207-317): validate, store a
`triggered` record, dispatch the workflow, and on dispatch success issue a
best-effort update to `running` whose own failure only prints a warning.
Returns the ordered effect trace and the HTTP outcome. -/
def api_trigger_tests (brand environment : String) (runIdOpt : Option String)
    (now : String) (putOk dispatchOk updateOk : Bool) :
    List TriggerEv × Except (Nat × String) TriggerResponse :=
  if !(valid_brands.contains brand) then
    ([], .error (400, "Invalid brand. Must be one of: mweb, webafrica"))
  else if !(api_valid_environments.contains environment) then
    ([], .error (400, "Invalid environment. Must be one of: prod, staging"))
  else
    let run_id := runIdOpt.getD (brand ++ "-" ++ environment ++ "-" ++ now)
    if !putOk then
      ([.putRecord "triggered"], .error (500, "Failed to store test run"))
    else
      let resp : TriggerResponse :=
        { runId := run_id, brand := brand, environment := environment,
          status := "triggered", githubRunId := none,
          message := "Test run triggered successfully" }
      if dispatchOk then
        ([.putRecord "triggered", .dispatchWorkflow,
          .updateRun "running" [("githubRunId", .null), ("status", .str "running")]],
         .ok resp)
      else
        ([.putRecord "triggered", .dispatchWorkflow], .ok resp)

/-- models handlers/trigger_tests.py `handler` (lines 10-158): validate,
dispatch the workflow FIRST, and only on dispatch success write the
`triggered` record (whose own failure only prints); there is no update to
`running` anywhere in this entry point. -/
def lambda_trigger_tests (brand environment : String) (dispatchOk putOk : Bool) :
    List TriggerEv × Except (Nat × String) String :=
  if brand.isEmpty || environment.isEmpty then
    ([], .error (400, "Missing required parameters: brand and environment"))
  else if !(valid_brands.contains brand) then
    ([], .error (400, "Invalid brand. Must be one of: mweb, webafrica"))
  else if !(lambda_valid_environments.contains environment) then
    ([], .error (400, "Invalid environment. Must be one of: prod, staging, dev"))
  else if !dispatchOk then
    ([.dispatchWorkflow], .error (500, "Failed to trigger GitHub workflow"))
  else
    ([.dispatchWorkflow, .putRecord "triggered"],
     .ok "Test workflow triggered successfully")

/-- Detects a running-update effect in a trigger trace. -/
def hasUpdateRun (tr : List TriggerEv) : Bool :=
  tr.any fun e => match e with
    | .updateRun _ _ => true
    | _ => false

/-! ### List entry points (src/handlers/list_runs.py, src/api.py list_runs) -/

def valid_statuses : List String :=
  ["pending", "triggered", "running", "passed", "failed", "cancelled", "completed"]

/-- models the DynamoDB query of `list_test_runs` (dynamodb.py lines 88-145):
one partition (by status via GSI1, else by brand, else the fixed default
brand `mweb`) is scanned in index order and `Limit` stops it after at most
`limit` items. -/
def queryItems (store : Store) (brand status : Option String) (limit : Nat) :
    List Item :=
  let base := match status with
    | some st => store.filter (fun it =>
        getAttr it "gsi1pk" == some (AttrVal.str ("STATUS#" ++ st)))
    | none => match brand with
      | some b => store.filter (fun it =>
          getAttr it "pk" == some (AttrVal.str ("BRAND#" ++ b)))
      | none => store.filter (fun it =>
          getAttr it "pk" == some (AttrVal.str "BRAND#mweb"))
  base.take limit

/-- Insertion of one item into a list sorted by `timestamp` descending. -/
def insertByTsDesc (it : Item) : List Item → List Item
  | [] => [it]
  | x :: rest =>
    if tsKey x ≤ tsKey it then it :: x :: rest else x :: insertByTsDesc it rest
where
  tsKey (i : Item) : String := match getAttr i "timestamp" with
    | some (.str s) => s
    | _ => ""

/-- The in-memory newest-first sort of `list_test_runs` (dynamodb.py line 150). -/
def sortByTsDesc (l : List Item) : List Item :=
  l.foldr insertByTsDesc []

/-- models `DynamoDBClient.list_test_runs` (filtering in memory by brand
when both filters are given, then sorting newest first). -/
def list_test_runs (store : Store) (brand status : Option String) (limit : Nat) :
    List Item :=
  let items := queryItems store brand status limit
  let items := match status, brand with
    | some _, some b => items.filter (fun it => getAttr it "brand" == some (.str b))
    | _, _ => items
  sortByTsDesc items

/-- models handlers/list_runs.py `handler`: cap the requested limit at 100
(lines 59-61), validate `brand` and `status`, query, and answer 200 with
the item list (the shaping of each item is irrelevant to the counting
claims and omitted). -/
def lambda_list_runs (store : Store) (brand status : Option String) (n : Nat) :
    Except (Nat × String) (List Item) :=
  let limit := if n > 100 then 100 else n
  if !(match brand with | some b => valid_brands.contains b | none => true) then
    .error (400, "Invalid brand. Must be one of: mweb, webafrica")
  else if !(match status with | some st => valid_statuses.contains st | none => true) then
    .error (400, "Invalid status")
  else
    .ok (list_test_runs store brand status limit)

/-- models FastAPI's validation of `limit: int = Query(25, le=100)`
(api.py line 106): a request whose `limit` exceeds 100 is rejected with a
422 validation error before the endpoint body runs. -/
def api_validate_limit (n : Int) : Except (Nat × String) Int :=
  if n ≤ 100 then .ok n else .error (422, "Input should be less than or equal to 100")

/-! ### Helper lemmas about attribute maps -/

theorem getAttr_setAttr_same (it : Item) (k : String) (v : AttrVal) :
    getAttr (setAttr it k v) k = some v := by
  induction it with
  | nil => simp [setAttr, getAttr]
  | cons kv rest ih =>
    by_cases h : kv.1 = k
    · simp [setAttr, h, getAttr]
    · simp [setAttr, h, getAttr, ih]

theorem getAttr_setAttr_other (it : Item) (k k' : String) (v : AttrVal)
    (h : k' ≠ k) : getAttr (setAttr it k v) k' = getAttr it k' := by
  induction it with
  | nil => simp [setAttr, getAttr, Ne.symm h]
  | cons kv rest ih =>
    by_cases hk : kv.1 = k
    · simp [setAttr, hk, getAttr, Ne.symm h]
    · by_cases hk' : kv.1 = k'
      · simp [setAttr, hk, getAttr, hk', h]
      · simp [setAttr, hk, getAttr, hk', ih]

theorem getAttr_append_left {it1 : Item} (it2 : Item) {k : String} {v : AttrVal}
    (h : getAttr it1 k = some v) : getAttr (it1 ++ it2) k = some v := by
  induction it1 with
  | nil => simp [getAttr] at h
  | cons kv rest ih =>
    by_cases hk : kv.1 = k
    · simp [getAttr, hk] at h ⊢
      exact h
    · simp [getAttr, hk] at h ⊢
      exact ih h

theorem getAttr_append_right {it1 : Item} (it2 : Item) {k : String}
    (h : getAttr it1 k = none) : getAttr (it1 ++ it2) k = getAttr it2 k := by
  induction it1 with
  | nil => simp
  | cons kv rest ih =>
    by_cases hk : kv.1 = k
    · simp [getAttr, hk] at h
    · simp [getAttr, hk] at h ⊢
      exact ih h

theorem getAttr_foldl_setAttr_not_mem (extras : Item) (init : Item) (k : String)
    (h : k ∉ extras.map Prod.fst) :
    getAttr (extras.foldl (fun acc kv => setAttr acc kv.1 kv.2) init) k = getAttr init k := by
  induction extras generalizing init with
  | nil => rfl
  | cons kv rest ih =>
    simp only [List.map_cons, List.mem_cons] at h
    push_neg at h
    simp only [List.foldl_cons]
    rw [ih _ h.2]
    exact getAttr_setAttr_other init kv.1 k kv.2 h.1

theorem getAttr_foldl_setAttr_mem (extras : Item) (init : Item) (k : String) (v : AttrVal)
    (hnd : (extras.map Prod.fst).Nodup) (hmem : (k, v) ∈ extras) :
    getAttr (extras.foldl (fun acc kv => setAttr acc kv.1 kv.2) init) k = some v := by
  induction extras generalizing init with
  | nil => simp at hmem
  | cons kv rest ih =>
    simp only [List.map_cons, List.nodup_cons] at hnd
    rcases List.mem_cons.mp hmem with heq | hrest
    · subst heq
      simp only [List.foldl_cons]
      rw [getAttr_foldl_setAttr_not_mem _ _ _ hnd.1, getAttr_setAttr_same]
    · exact ih _ hnd.2 hrest


theorem length_insertByTsDesc (it : Item) (l : List Item) :
    (insertByTsDesc it l).length = l.length + 1 := by
  induction l with
  | nil => rfl
  | cons x rest ih =>
    by_cases h : insertByTsDesc.tsKey x ≤ insertByTsDesc.tsKey it
    · simp [insertByTsDesc, h]
    · simp [insertByTsDesc, h, ih]

theorem length_sortByTsDesc (l : List Item) : (sortByTsDesc l).length = l.length := by
  induction l with
  | nil => rfl
  | cons x rest ih =>
    simp only [sortByTsDesc, List.foldr_cons] at ih ⊢
    rw [length_insertByTsDesc, ih, List.length_cons]

/-! ## Claims -/

/-- C1 (amended).  For a workflow_run webhook request, when a secret is
configured AND a signature header is present, the handler checks the
HMAC-SHA256 verification oracle and rejects with 401 exactly when it fails;
when no secret is configured, or when the request carries no signature
header (even with a secret configured), the request proceeds unverified. -/
theorem webhook_gate_spec :
    (∀ (sec sig body : String) (verify : String → String → String → Bool),
      webhook_signature_gate (some sec) (some sig) body verify = .reject401 ↔
        verify body sig sec = false) ∧
    (∀ (sec body : String) (verify : String → String → String → Bool),
      webhook_signature_gate (some sec) none body verify = .proceed) ∧
    (∀ (sig : Option String) (body : String) (verify : String → String → String → Bool),
      webhook_signature_gate none sig body verify = .proceed) := by
  refine ⟨fun sec sig body verify => ?_, fun sec body verify => rfl, fun sig body verify => ?_⟩
  · unfold webhook_signature_gate
    cases h : verify body sig sec <;> simp [h]
  · cases sig <;> rfl

/-- C1 counterexample.  A workflow_run request carrying no signature header
is processed further even though a webhook secret is configured and even
though no signature could possibly verify (the oracle here rejects
everything), contradicting the claim that such a request is not processed. -/
theorem webhook_gate_no_header_processed :
    webhook_signature_gate (some "topsecret") none "{}" (fun _ _ _ => false) = .proceed := by
  rfl

/-- C2 (amended).  The get-result operation resolves and attaches artifacts
exactly when the stored status is passed, failed, or completed: for those
statuses the S3 result (or its error sidecar) is attached, and for every
other status — including the terminal status cancelled — the artifacts
field stays null. -/
theorem get_results_artifacts_spec (run : Item) (st : String)
    (fetch : Except String AttrVal)
    (hst : getAttr run "status" = some (.str st)) :
    (get_results_artifacts run fetch ≠ .nullField ↔ st ∈ artifactStatuses) ∧
    (∀ a, fetch = .ok a → st ∈ artifactStatuses →
      get_results_artifacts run fetch = .resolved a) ∧
    (∀ e, fetch = .error e → st ∈ artifactStatuses →
      get_results_artifacts run fetch = .errObj e) := by
  unfold get_results_artifacts
  rw [hst]
  by_cases hmem : st ∈ artifactStatuses
  · have hc : artifactStatuses.contains st = true := List.elem_eq_true_of_mem hmem
    refine ⟨?_, ?_, ?_⟩
    · simp only [hc, if_true]
      cases fetch <;> simp [hmem]
    · intro a ha _
      simp [hc, ha, hmem]
    · intro e he _
      simp [hc, he, hmem]
  · have hc : artifactStatuses.contains st = false := by
      cases h : artifactStatuses.contains st
      · rfl
      · exact absurd (List.mem_of_elem_eq_true h) hmem
    refine ⟨?_, fun a _ hm => absurd hm hmem, fun e _ hm => absurd hm hmem⟩
    simp [hc, hmem]

/-- C2 witness. -/
theorem get_results_artifacts_spec_witness :
    getAttr [("status", AttrVal.str "passed")] "status" = some (.str "passed") ∧
    ((get_results_artifacts [("status", AttrVal.str "passed")] (.ok .null) ≠ .nullField ↔
        "passed" ∈ artifactStatuses) ∧
      (∀ a, (Except.ok AttrVal.null : Except String AttrVal) = .ok a →
        "passed" ∈ artifactStatuses →
        get_results_artifacts [("status", AttrVal.str "passed")] (.ok .null) = .resolved a) ∧
      (∀ e, (Except.ok AttrVal.null : Except String AttrVal) = .error e →
        "passed" ∈ artifactStatuses →
        get_results_artifacts [("status", AttrVal.str "passed")] (.ok .null) = .errObj e)) :=
  ⟨by decide, get_results_artifacts_spec [("status", AttrVal.str "passed")] "passed"
    (.ok .null) (by decide)⟩

/-- C2 counterexample.  A run whose status is cancelled is terminal by the
spec's definition, yet the code leaves the artifacts field null and never
attempts resolution (cancelled is missing from the guard list). -/
theorem get_results_cancelled_no_artifacts :
    "cancelled" ∈ specTerminalStatuses ∧
    get_results_artifacts
      [("runId", AttrVal.str "r1"), ("status", AttrVal.str "cancelled")]
      (.ok (AttrVal.str "artifacts-present-in-s3")) = .nullField := by
  constructor
  · decide
  · rfl

/-- C4.  The webhook conclusion mapping is the fixed total table:
success→passed, failure→failed, cancelled→cancelled, skipped→cancelled,
timed_out→failed, action_required→failed, and every other value —
including an absent conclusion — maps to failed. -/
theorem conclusion_mapping_spec :
    mapConclusion (some "success") = "passed" ∧
    mapConclusion (some "failure") = "failed" ∧
    mapConclusion (some "cancelled") = "cancelled" ∧
    mapConclusion (some "skipped") = "cancelled" ∧
    mapConclusion (some "timed_out") = "failed" ∧
    mapConclusion (some "action_required") = "failed" ∧
    mapConclusion none = "failed" ∧
    (∀ c : String,
      c ∉ ["success", "failure", "cancelled", "skipped", "timed_out", "action_required"] →
      mapConclusion (some c) = "failed") := by
  refine ⟨rfl, rfl, rfl, rfl, rfl, rfl, rfl, fun c hc => ?_⟩
  simp only [List.mem_cons, List.not_mem_nil, or_false, not_or] at hc
  obtain ⟨h1, h2, h3, h4, h5, h6⟩ := hc
  have e1 : ("success" == c) = false := beq_eq_false_iff_ne.mpr (Ne.symm h1)
  have e2 : ("failure" == c) = false := beq_eq_false_iff_ne.mpr (Ne.symm h2)
  have e3 : ("cancelled" == c) = false := beq_eq_false_iff_ne.mpr (Ne.symm h3)
  have e4 : ("skipped" == c) = false := beq_eq_false_iff_ne.mpr (Ne.symm h4)
  have e5 : ("timed_out" == c) = false := beq_eq_false_iff_ne.mpr (Ne.symm h5)
  have e6 : ("action_required" == c) = false := beq_eq_false_iff_ne.mpr (Ne.symm h6)
  simp [mapConclusion, status_mapping, List.find?, e1, e2, e3, e4, e5, e6]

/-- C4 witness. -/
theorem conclusion_mapping_spec_witness :
    ("weird" ∉ ["success", "failure", "cancelled", "skipped", "timed_out", "action_required"]) ∧
    mapConclusion (some "weird") = "failed" :=
  ⟨by decide, conclusion_mapping_spec.2.2.2.2.2.2.2 "weird" (by decide)⟩

/-- C3 (amended).  The FastAPI trigger endpoint performs its steps in
order: validate inputs, write a `triggered` record, dispatch the CI
workflow, and on dispatch success update that record to `running` (the
attached `githubRunId` field is null because the dispatch client reports
no run identifier); the output is identical whatever the running-update's
own outcome, so its failure is not surfaced.  On dispatch failure no
update is attempted. -/
theorem api_trigger_order_spec (brand environment : String) (runIdOpt : Option String)
    (now : String) (updateOk : Bool)
    (hb : valid_brands.contains brand = true)
    (he : api_valid_environments.contains environment = true) :
    (api_trigger_tests brand environment runIdOpt now true true updateOk).1 =
      [.putRecord "triggered", .dispatchWorkflow,
       .updateRun "running" [("githubRunId", .null), ("status", .str "running")]] ∧
    (api_trigger_tests brand environment runIdOpt now true false updateOk).1 =
      [.putRecord "triggered", .dispatchWorkflow] ∧
    (∀ dispatchOk u1 u2,
      api_trigger_tests brand environment runIdOpt now true dispatchOk u1 =
      api_trigger_tests brand environment runIdOpt now true dispatchOk u2) := by
  have hb' : brand ∈ valid_brands := by simpa using hb
  have he' : environment ∈ api_valid_environments := by simpa using he
  refine ⟨?_, ?_, fun dispatchOk u1 u2 => ?_⟩ <;>
    simp [api_trigger_tests, hb', he']

/-- C3 witness. -/
theorem api_trigger_order_spec_witness :
    (valid_brands.contains "mweb" = true ∧
      api_valid_environments.contains "prod" = true) ∧
    ((api_trigger_tests "mweb" "prod" none "2025-06-03" true true false).1 =
      [.putRecord "triggered", .dispatchWorkflow,
       .updateRun "running" [("githubRunId", .null), ("status", .str "running")]] ∧
    (api_trigger_tests "mweb" "prod" none "2025-06-03" true false false).1 =
      [.putRecord "triggered", .dispatchWorkflow] ∧
    (∀ dispatchOk u1 u2,
      api_trigger_tests "mweb" "prod" none "2025-06-03" true dispatchOk u1 =
      api_trigger_tests "mweb" "prod" none "2025-06-03" true dispatchOk u2)) :=
  ⟨⟨by decide, by decide⟩,
    api_trigger_order_spec "mweb" "prod" none "2025-06-03" false (by decide) (by decide)⟩

/-- C3 counterexample.  The Lambda trigger handler, on a valid request with
a successful dispatch, dispatches the workflow BEFORE writing the
`triggered` record and performs no update to `running` at all — the claim's
step order (write, dispatch, update-to-running) is violated by this entry
point. -/
theorem lambda_trigger_order_counterexample :
    (lambda_trigger_tests "mweb" "prod" true true).1 =
      [.dispatchWorkflow, .putRecord "triggered"] ∧
    hasUpdateRun (lambda_trigger_tests "mweb" "prod" true true).1 = false := by
  constructor
  · rfl
  · rfl

/-- C5 (amended).  When both remote timestamps parse, the computed duration
is the whole-second difference end minus start (which may be negative when
the timestamps are out of order), and the reconcile update carries the
`duration` field exactly when that difference is nonzero — a zero duration
is dropped by the `if duration:` truthiness guard.  When either timestamp
is missing or fails to parse, the duration is omitted. -/
theorem webhook_duration_spec (c u : String) (a b : Int)
    (hc : parseTs c = some a) (hu : parseTs u = some b) :
    calcDuration (some c) (some u) = some (b - a) ∧
    (∀ fs gr co wn rn ua,
      getAttr (webhookUpdateData fs gr co wn rn ua (calcDuration (some c) (some u)))
          "duration" =
        if b - a = 0 then none else some (.int (b - a))) ∧
    (∀ w, calcDuration (some w) none = none) ∧
    (∀ w, calcDuration none w = none) ∧
    (∀ w x, parseTs w = none →
      calcDuration (some w) (some x) = none ∧ calcDuration (some x) (some w) = none) := by
  have hdur : calcDuration (some c) (some u) = some (b - a) := by
    simp [calcDuration, hc, hu]
  refine ⟨hdur, fun fs gr co wn rn ua => ?_, fun w => rfl, fun w => ?_, fun w x hw => ?_⟩
  · rw [hdur]
    by_cases h0 : b - a = 0
    · simp [webhookUpdateData, h0, getAttr]
    · simp [webhookUpdateData, h0, getAttr]
  · cases w <;> rfl
  · constructor
    · simp [calcDuration, hw]
    · cases hx : parseTs x <;> simp [calcDuration, hx, hw]

/-- C5 witness. -/
theorem webhook_duration_spec_witness :
    (parseTs "2025-06-03T14:00:00Z" = some 1748959200 ∧
      parseTs "2025-06-03T14:05:30Z" = some 1748959530) ∧
    (calcDuration (some "2025-06-03T14:00:00Z") (some "2025-06-03T14:05:30Z") =
        some (1748959530 - 1748959200) ∧
      (∀ fs gr co wn rn ua,
        getAttr (webhookUpdateData fs gr co wn rn ua
            (calcDuration (some "2025-06-03T14:00:00Z") (some "2025-06-03T14:05:30Z")))
            "duration" =
          if (1748959530 : Int) - 1748959200 = 0 then none
          else some (.int (1748959530 - 1748959200))) ∧
      (∀ w, calcDuration (some w) none = none) ∧
      (∀ w, calcDuration none w = none) ∧
      (∀ w x, parseTs w = none →
        calcDuration (some w) (some x) = none ∧ calcDuration (some x) (some w) = none)) :=
  ⟨⟨by decide, by decide⟩,
    webhook_duration_spec "2025-06-03T14:00:00Z" "2025-06-03T14:05:30Z"
      1748959200 1748959530 (by decide) (by decide)⟩

/-- C5 counterexample.  Two refutations of the claim at concrete inputs:
a run whose remote start and end timestamps are equal parses on both sides
yet the update omits `duration` (zero is falsy in `if duration:`), and a
run whose end precedes its start gets a negative duration attached, against
the claimed non-negativity. -/
theorem webhook_duration_counterexample :
    parseTs "2025-06-03T14:00:00Z" = some 1748959200 ∧
    calcDuration (some "2025-06-03T14:00:00Z") (some "2025-06-03T14:00:00Z") = some 0 ∧
    getAttr (webhookUpdateData "passed" "123" (some "success") none none
        (some "2025-06-03T14:00:00Z")
        (calcDuration (some "2025-06-03T14:00:00Z") (some "2025-06-03T14:00:00Z")))
      "duration" = none ∧
    calcDuration (some "2025-06-03T14:00:00Z") (some "2025-06-03T13:00:00Z") =
      some (-3600) ∧
    getAttr (webhookUpdateData "passed" "123" (some "success") none none
        (some "2025-06-03T13:00:00Z")
        (calcDuration (some "2025-06-03T14:00:00Z") (some "2025-06-03T13:00:00Z")))
      "duration" = some (.int (-3600)) := by
  refine ⟨by decide, by decide, by decide, by decide, by decide⟩

theorem length_list_test_runs_le (store : Store) (brand status : Option String)
    (limit : Nat) : (list_test_runs store brand status limit).length ≤ limit := by
  unfold list_test_runs
  rw [length_sortByTsDesc]
  have hq : (queryItems store brand status limit).length ≤ limit := by
    unfold queryItems
    cases status <;> cases brand <;> simp [List.length_take]
  cases status with
  | none => simpa using hq
  | some st =>
    cases brand with
    | none => simpa using hq
    | some b =>
      exact le_trans (List.length_filter_le _ _) hq

/-- C6 (amended).  The Lambda list handler accepts any requested limit N
with valid filters and returns at most min(N, 100) items: a limit above
100 is capped to 100 rather than rejected.  The FastAPI endpoint enforces
the same bound by validation instead (le=100), rejecting limits above 100
(see the counterexample). -/
theorem lambda_list_limit_spec (store : Store) (brand status : Option String) (n : Nat)
    (hb : brand.all (fun b => valid_brands.contains b) = true)
    (hst : status.all (fun st => valid_statuses.contains st) = true) :
    ∃ items, lambda_list_runs store brand status n = .ok items ∧
      items.length ≤ min n 100 := by
  have hlen : (list_test_runs store brand status (if n > 100 then 100 else n)).length ≤
      min n 100 := by
    refine le_trans (length_list_test_runs_le _ _ _ _) ?_
    by_cases h : n > 100 <;> simp [h] <;> omega
  refine ⟨_, ?_, hlen⟩
  cases brand with
  | none =>
    cases status with
    | none => rfl
    | some st =>
      have h1 : st ∈ valid_statuses := by simpa using hst
      simp [lambda_list_runs, h1]
  | some b =>
    have h0 : b ∈ valid_brands := by simpa using hb
    cases status with
    | none => simp [lambda_list_runs, h0]
    | some st =>
      have h1 : st ∈ valid_statuses := by simpa using hst
      simp [lambda_list_runs, h0, h1]

/-- C6 witness. -/
theorem lambda_list_limit_spec_witness :
    ((some "mweb" : Option String).all (fun b => valid_brands.contains b) = true ∧
      (none : Option String).all (fun st => valid_statuses.contains st) = true) ∧
    (∃ items, lambda_list_runs [] (some "mweb") none 250 = .ok items ∧
      items.length ≤ min 250 100) :=
  ⟨⟨by decide, by decide⟩,
    lambda_list_limit_spec [] (some "mweb") none 250 (by decide) (by decide)⟩

/-- C6 counterexample.  The FastAPI list endpoint does not cap a
caller-requested limit above 100: FastAPI's le=100 constraint rejects the
request with a 422 validation error, so a limit of 150 is refused rather
than accepted-and-capped. -/
theorem api_limit_rejected_counterexample :
    api_validate_limit 150 = .error (422, "Input should be less than or equal to 100") := by
  rfl

/-- C10.  `put_test_run` stores the write-time clock as the record's
`timestamp` (and inside the sort key), and never reads a `timestamp` field
from its input: changing the input's `timestamp` leaves the stored item
unchanged, so whenever the caller's own timestamp differs from the
write-time one, the stored timestamp differs from what the caller supplied
(as happens in the trigger Lambda handler, which generates and returns its
own timestamp). -/
theorem put_ignores_caller_timestamp (now : String) (ttl : Int) (rd item : Item)
    (h : put_test_run now ttl rd = some item) :
    getAttr item "timestamp" = some (.str now) ∧
    (∀ v, put_test_run now ttl (setAttr rd "timestamp" v) = put_test_run now ttl rd) ∧
    (∀ t, getAttr rd "timestamp" = some t → t ≠ .str now →
      getAttr item "timestamp" ≠ some t) := by
  have hts : getAttr item "timestamp" = some (.str now) := by
    unfold put_test_run at h
    cases hb : getAttr rd "brand" with
    | none => rw [hb] at h; exact absurd h (by simp)
    | some b =>
      cases hr : getAttr rd "runId" with
      | none => rw [hb, hr] at h; exact absurd h (by simp)
      | some r =>
        cases he : getAttr rd "environment" with
        | none => rw [hb, hr, he] at h; exact absurd h (by simp)
        | some env =>
          rw [hb, hr, he] at h
          simp only [Option.some.injEq] at h
          rw [← h]
          exact getAttr_append_left _ (by simp [putBase, getAttr])
  refine ⟨hts, fun v => ?_, fun t ht hne hcon => ?_⟩
  · unfold put_test_run putTail optEntry
    rw [getAttr_setAttr_other rd "timestamp" "brand" v (by decide),
        getAttr_setAttr_other rd "timestamp" "runId" v (by decide),
        getAttr_setAttr_other rd "timestamp" "environment" v (by decide),
        getAttr_setAttr_other rd "timestamp" "status" v (by decide),
        getAttr_setAttr_other rd "timestamp" "githubRunId" v (by decide),
        getAttr_setAttr_other rd "timestamp" "commit" v (by decide),
        getAttr_setAttr_other rd "timestamp" "actor" v (by decide),
        getAttr_setAttr_other rd "timestamp" "workflow" v (by decide),
        getAttr_setAttr_other rd "timestamp" "repository" v (by decide),
        getAttr_setAttr_other rd "timestamp" "duration" v (by decide),
        getAttr_setAttr_other rd "timestamp" "tests" v (by decide),
        getAttr_setAttr_other rd "timestamp" "reportUrl" v (by decide),
        getAttr_setAttr_other rd "timestamp" "artifacts" v (by decide)]
  · rw [hts] at hcon
    exact hne (Option.some.inj hcon).symm

/-- C10 witness. -/
theorem put_ignores_caller_timestamp_witness :
    put_test_run "2025-06-03T14:00:00+00:00" 7776000
      [("runId", AttrVal.str "r1"), ("brand", AttrVal.str "mweb"),
       ("environment", AttrVal.str "prod"), ("status", AttrVal.str "triggered"),
       ("timestamp", AttrVal.str "2020-01-01T00:00:00+00:00")] =
      some (putBase "2025-06-03T14:00:00+00:00" 7776000 (.str "mweb") (.str "r1")
        (.str "prod") (.str "triggered") .null .null .null .null .null) ∧
    (getAttr (putBase "2025-06-03T14:00:00+00:00" 7776000 (.str "mweb") (.str "r1")
        (.str "prod") (.str "triggered") .null .null .null .null .null) "timestamp" =
      some (.str "2025-06-03T14:00:00+00:00") ∧
    (∀ v, put_test_run "2025-06-03T14:00:00+00:00" 7776000
        (setAttr [("runId", AttrVal.str "r1"), ("brand", AttrVal.str "mweb"),
          ("environment", AttrVal.str "prod"), ("status", AttrVal.str "triggered"),
          ("timestamp", AttrVal.str "2020-01-01T00:00:00+00:00")] "timestamp" v) =
      put_test_run "2025-06-03T14:00:00+00:00" 7776000
        [("runId", AttrVal.str "r1"), ("brand", AttrVal.str "mweb"),
         ("environment", AttrVal.str "prod"), ("status", AttrVal.str "triggered"),
         ("timestamp", AttrVal.str "2020-01-01T00:00:00+00:00")]) ∧
    (∀ t, getAttr [("runId", AttrVal.str "r1"), ("brand", AttrVal.str "mweb"),
          ("environment", AttrVal.str "prod"), ("status", AttrVal.str "triggered"),
          ("timestamp", AttrVal.str "2020-01-01T00:00:00+00:00")] "timestamp" = some t →
      t ≠ .str "2025-06-03T14:00:00+00:00" →
      getAttr (putBase "2025-06-03T14:00:00+00:00" 7776000 (.str "mweb") (.str "r1")
        (.str "prod") (.str "triggered") .null .null .null .null .null) "timestamp" ≠
        some t)) := by
  have happ : put_test_run "2025-06-03T14:00:00+00:00" 7776000
      [("runId", AttrVal.str "r1"), ("brand", AttrVal.str "mweb"),
       ("environment", AttrVal.str "prod"), ("status", AttrVal.str "triggered"),
       ("timestamp", AttrVal.str "2020-01-01T00:00:00+00:00")] =
      some (putBase "2025-06-03T14:00:00+00:00" 7776000 (.str "mweb") (.str "r1")
        (.str "prod") (.str "triggered") .null .null .null .null .null) := by decide
  exact ⟨happ, put_ignores_caller_timestamp _ _ _ _ happ⟩

theorem hasDupPaths_eq_false_iff (l : List String) :
    hasDupPaths l = false ↔ l.Nodup := by
  induction l with
  | nil => simp [hasDupPaths]
  | cons p rest ih => simp [hasDupPaths, ih, List.nodup_cons]

theorem updatePaths_nodup_facts (extras : Item)
    (hnd : hasDupPaths (updatePaths extras) = false) :
    "status" ∉ extras.map Prod.fst ∧ "gsi1pk" ∉ extras.map Prod.fst ∧
      (extras.map Prod.fst).Nodup := by
  rw [hasDupPaths_eq_false_iff] at hnd
  unfold updatePaths at hnd
  simp only [List.nodup_cons, List.mem_cons, not_or] at hnd
  exact ⟨hnd.1.2, hnd.2.1, hnd.2.2⟩

theorem getAttr_applyUpdate_status (it : Item) (status : String) (extras : Item)
    (hs : "status" ∉ extras.map Prod.fst) :
    getAttr (applyUpdate it status extras) "status" = some (.str status) := by
  unfold applyUpdate
  rw [getAttr_foldl_setAttr_not_mem _ _ _ hs,
      getAttr_setAttr_other _ _ _ _ (by decide), getAttr_setAttr_same]

theorem getAttr_applyUpdate_gsi1pk (it : Item) (status : String) (extras : Item)
    (hg : "gsi1pk" ∉ extras.map Prod.fst) :
    getAttr (applyUpdate it status extras) "gsi1pk" =
      some (.str ("STATUS#" ++ status)) := by
  unfold applyUpdate
  rw [getAttr_foldl_setAttr_not_mem _ _ _ hg, getAttr_setAttr_same]

/-- C8.  Every record written by `put_test_run` carries
`gsi1pk = "STATUS#" ++ <its status attribute>`, and every successful
`update_test_run_status` writes the new `status` and the mirroring
`gsi1pk = "STATUS#" ++ <new status>` in the same `update_item` call, so the
mirror invariant holds after both store operations. -/
theorem status_mirror_spec :
    (∀ now ttl rd item, put_test_run now ttl rd = some item →
      ∃ st, getAttr item "status" = some st ∧
        getAttr item "gsi1pk" = some (.str ("STATUS#" ++ attrDisplay st))) ∧
    (∀ store brand run_id st adt res store',
      update_test_run_status store brand run_id st adt = (res, store') →
      res.success = true →
      ∃ upd, res.item = some upd ∧
        getAttr upd "status" = some (.str st) ∧
        getAttr upd "gsi1pk" = some (.str ("STATUS#" ++ st))) := by
  constructor
  · intro now ttl rd item h
    unfold put_test_run at h
    cases hb : getAttr rd "brand" with
    | none => rw [hb] at h; exact absurd h (by simp)
    | some b =>
      cases hr : getAttr rd "runId" with
      | none => rw [hb, hr] at h; exact absurd h (by simp)
      | some r =>
        cases he : getAttr rd "environment" with
        | none => rw [hb, hr, he] at h; exact absurd h (by simp)
        | some env =>
          rw [hb, hr, he] at h
          simp only [Option.some.injEq] at h
          refine ⟨(getAttr rd "status").getD (.str "pending"), ?_, ?_⟩ <;>
            rw [← h] <;> exact getAttr_append_left _ (by simp [putBase, getAttr])
  · intro store brand run_id st adt res store' h hsucc
    simp only [update_test_run_status] at h
    cases hget : get_test_run store brand run_id with
    | none =>
      rw [hget] at h
      simp only [Prod.mk.injEq] at h
      rw [← h.1] at hsucc
      simp at hsucc
    | some ex =>
      rw [hget] at h
      simp only at h
      cases hnd : hasDupPaths (updatePaths (adt.filter
          (fun kv => !(structuralKeys.contains kv.1)))) with
      | true =>
        rw [hnd] at h
        simp only [if_true, Prod.mk.injEq] at h
        rw [← h.1] at hsucc
        simp at hsucc
      | false =>
        rw [hnd] at h
        simp only [Bool.false_eq_true, if_false, Prod.mk.injEq] at h
        obtain ⟨hs, hg, _⟩ := updatePaths_nodup_facts _ hnd
        refine ⟨applyUpdate ex st (adt.filter
          (fun kv => !(structuralKeys.contains kv.1))), ?_, ?_, ?_⟩
        · rw [← h.1]
        · exact getAttr_applyUpdate_status _ _ _ hs
        · exact getAttr_applyUpdate_gsi1pk _ _ _ hg

/-- C8 witness. -/
theorem status_mirror_spec_witness :
    (put_test_run "2025-06-03T14:00:00+00:00" 7776000
        [("runId", AttrVal.str "r1"), ("brand", AttrVal.str "mweb"),
         ("environment", AttrVal.str "prod"), ("status", AttrVal.str "triggered")] =
      some (putBase "2025-06-03T14:00:00+00:00" 7776000 (.str "mweb") (.str "r1")
        (.str "prod") (.str "triggered") .null .null .null .null .null) ∧
      (∃ st, getAttr (putBase "2025-06-03T14:00:00+00:00" 7776000 (.str "mweb")
          (.str "r1") (.str "prod") (.str "triggered") .null .null .null .null .null)
          "status" = some st ∧
        getAttr (putBase "2025-06-03T14:00:00+00:00" 7776000 (.str "mweb") (.str "r1")
          (.str "prod") (.str "triggered") .null .null .null .null .null) "gsi1pk" =
          some (.str ("STATUS#" ++ attrDisplay st)))) ∧
    ((update_test_run_status
        [[("pk", AttrVal.str "BRAND#mweb"), ("sk", AttrVal.str "RUN#t0#r1"),
          ("runId", AttrVal.str "r1"), ("status", AttrVal.str "triggered"),
          ("gsi1pk", AttrVal.str "STATUS#triggered")]]
        "mweb" "r1" "passed" [("duration", AttrVal.int 120)]).1.success = true ∧
      ∃ upd, (update_test_run_status
        [[("pk", AttrVal.str "BRAND#mweb"), ("sk", AttrVal.str "RUN#t0#r1"),
          ("runId", AttrVal.str "r1"), ("status", AttrVal.str "triggered"),
          ("gsi1pk", AttrVal.str "STATUS#triggered")]]
        "mweb" "r1" "passed" [("duration", AttrVal.int 120)]).1.item = some upd ∧
        getAttr upd "status" = some (.str "passed") ∧
        getAttr upd "gsi1pk" = some (.str ("STATUS#" ++ "passed"))) := by
  refine ⟨⟨by decide, status_mirror_spec.1 "2025-06-03T14:00:00+00:00" 7776000
      [("runId", AttrVal.str "r1"), ("brand", AttrVal.str "mweb"),
       ("environment", AttrVal.str "prod"), ("status", AttrVal.str "triggered")]
      (putBase "2025-06-03T14:00:00+00:00" 7776000 (.str "mweb") (.str "r1")
        (.str "prod") (.str "triggered") .null .null .null .null .null)
      (by decide)⟩, by decide, ?_⟩
  exact status_mirror_spec.2
    [[("pk", AttrVal.str "BRAND#mweb"), ("sk", AttrVal.str "RUN#t0#r1"),
      ("runId", AttrVal.str "r1"), ("status", AttrVal.str "triggered"),
      ("gsi1pk", AttrVal.str "STATUS#triggered")]]
    "mweb" "r1" "passed" [("duration", AttrVal.int 120)] _ _ rfl (by decide)

theorem structural_not_mem_extras (adt : Item) (k : String) (hk : k ∈ structuralKeys) :
    k ∉ (adt.filter (fun kv => !(structuralKeys.contains kv.1))).map Prod.fst := by
  intro hm
  simp only [List.mem_map] at hm
  obtain ⟨kv, hkv, hfst⟩ := hm
  have hp := (List.mem_filter.mp hkv).2
  rw [hfst] at hp
  simp only [Bool.not_eq_eq_eq_not, Bool.not_true] at hp
  exact absurd hk (by simpa using hp)

/-- C7.  `update_test_run_status` answers "Test run not found" and leaves
the store untouched when no record with the given brand and runId exists;
when the record exists and the storage layer raises no error, it reports
success with the fully updated record, in which every `additional_data`
entry has been applied except those named pk, sk, gsi1pk or gsi1sk, which
are ignored (pk, sk and gsi1sk keep their stored values; gsi1pk changes
only through the status mirror). -/
theorem update_status_contract :
    (∀ store brand run_id st adt,
      get_test_run store brand run_id = none →
      update_test_run_status store brand run_id st adt =
        ({ success := false, item := none, error := some "Test run not found" }, store)) ∧
    (∀ store brand run_id st adt ex,
      get_test_run store brand run_id = some ex →
      (adt.map Prod.fst).Nodup →
      "status" ∉ adt.map Prod.fst →
      ∃ upd, (update_test_run_status store brand run_id st adt).1 =
          { success := true, item := some upd, error := none } ∧
        (∀ k v, (k, v) ∈ adt → k ∉ structuralKeys → getAttr upd k = some v) ∧
        getAttr upd "pk" = getAttr ex "pk" ∧
        getAttr upd "sk" = getAttr ex "sk" ∧
        getAttr upd "gsi1sk" = getAttr ex "gsi1sk") := by
  constructor
  · intro store brand run_id st adt h
    simp only [update_test_run_status, h]
  · intro store brand run_id st adt ex hget hnd hst
    have hsub : List.Sublist
        ((adt.filter (fun kv => !(structuralKeys.contains kv.1))).map Prod.fst)
        (adt.map Prod.fst) := (List.filter_sublist adt).map Prod.fst
    have hnd' : ((adt.filter (fun kv => !(structuralKeys.contains kv.1))).map
        Prod.fst).Nodup := hnd.sublist hsub
    have hst' : "status" ∉ (adt.filter
        (fun kv => !(structuralKeys.contains kv.1))).map Prod.fst :=
      fun hm => hst (hsub.subset hm)
    have hg' := structural_not_mem_extras adt "gsi1pk" (by decide)
    have hpk' := structural_not_mem_extras adt "pk" (by decide)
    have hsk' := structural_not_mem_extras adt "sk" (by decide)
    have hgsk' := structural_not_mem_extras adt "gsi1sk" (by decide)
    have hdup : hasDupPaths (updatePaths (adt.filter
        (fun kv => !(structuralKeys.contains kv.1)))) = false := by
      rw [hasDupPaths_eq_false_iff]
      unfold updatePaths
      refine List.nodup_cons.mpr ⟨?_, List.nodup_cons.mpr ⟨hg', hnd'⟩⟩
      simp only [List.mem_cons, not_or]
      exact ⟨by decide, hst'⟩
    refine ⟨applyUpdate ex st (adt.filter (fun kv => !(structuralKeys.contains kv.1))),
      ?_, ?_, ?_, ?_, ?_⟩
    · simp only [update_test_run_status, hget, hdup, Bool.false_eq_true, if_false]
    · intro k v hkv hks
      have hkmem : (k, v) ∈ adt.filter (fun kv => !(structuralKeys.contains kv.1)) := by
        refine List.mem_filter.mpr ⟨hkv, ?_⟩
        simpa using hks
      unfold applyUpdate
      exact getAttr_foldl_setAttr_mem _ _ _ _ hnd' hkmem
    · unfold applyUpdate
      rw [getAttr_foldl_setAttr_not_mem _ _ _ hpk',
          getAttr_setAttr_other _ _ _ _ (by decide),
          getAttr_setAttr_other _ _ _ _ (by decide)]
    · unfold applyUpdate
      rw [getAttr_foldl_setAttr_not_mem _ _ _ hsk',
          getAttr_setAttr_other _ _ _ _ (by decide),
          getAttr_setAttr_other _ _ _ _ (by decide)]
    · unfold applyUpdate
      rw [getAttr_foldl_setAttr_not_mem _ _ _ hgsk',
          getAttr_setAttr_other _ _ _ _ (by decide),
          getAttr_setAttr_other _ _ _ _ (by decide)]

/-- C7 witness. -/
theorem update_status_contract_witness :
    (get_test_run [] "mweb" "missing" = none ∧
      update_test_run_status [] "mweb" "missing" "passed" [] =
        ({ success := false, item := none, error := some "Test run not found" }, [])) ∧
    ((get_test_run
        [[("pk", AttrVal.str "BRAND#mweb"), ("sk", AttrVal.str "RUN#t0#r1"),
          ("runId", AttrVal.str "r1"), ("status", AttrVal.str "triggered"),
          ("gsi1pk", AttrVal.str "STATUS#triggered"),
          ("gsi1sk", AttrVal.str "TIMESTAMP#t0")]]
        "mweb" "r1" =
      some [("pk", AttrVal.str "BRAND#mweb"), ("sk", AttrVal.str "RUN#t0#r1"),
        ("runId", AttrVal.str "r1"), ("status", AttrVal.str "triggered"),
        ("gsi1pk", AttrVal.str "STATUS#triggered"),
        ("gsi1sk", AttrVal.str "TIMESTAMP#t0")] ∧
      ([("duration", AttrVal.int 120), ("pk", AttrVal.str "EVIL")].map
        (Prod.fst (α := String) (β := AttrVal))).Nodup ∧
      "status" ∉ [("duration", AttrVal.int 120), ("pk", AttrVal.str "EVIL")].map
        (Prod.fst (α := String) (β := AttrVal))) ∧
    (∃ upd, (update_test_run_status
        [[("pk", AttrVal.str "BRAND#mweb"), ("sk", AttrVal.str "RUN#t0#r1"),
          ("runId", AttrVal.str "r1"), ("status", AttrVal.str "triggered"),
          ("gsi1pk", AttrVal.str "STATUS#triggered"),
          ("gsi1sk", AttrVal.str "TIMESTAMP#t0")]]
        "mweb" "r1" "passed"
        [("duration", AttrVal.int 120), ("pk", AttrVal.str "EVIL")]).1 =
        { success := true, item := some upd, error := none } ∧
      (∀ k v, (k, v) ∈ [("duration", AttrVal.int 120), ("pk", AttrVal.str "EVIL")] →
        k ∉ structuralKeys → getAttr upd k = some v) ∧
      getAttr upd "pk" = getAttr [("pk", AttrVal.str "BRAND#mweb"),
        ("sk", AttrVal.str "RUN#t0#r1"), ("runId", AttrVal.str "r1"),
        ("status", AttrVal.str "triggered"), ("gsi1pk", AttrVal.str "STATUS#triggered"),
        ("gsi1sk", AttrVal.str "TIMESTAMP#t0")] "pk" ∧
      getAttr upd "sk" = getAttr [("pk", AttrVal.str "BRAND#mweb"),
        ("sk", AttrVal.str "RUN#t0#r1"), ("runId", AttrVal.str "r1"),
        ("status", AttrVal.str "triggered"), ("gsi1pk", AttrVal.str "STATUS#triggered"),
        ("gsi1sk", AttrVal.str "TIMESTAMP#t0")] "sk" ∧
      getAttr upd "gsi1sk" = getAttr [("pk", AttrVal.str "BRAND#mweb"),
        ("sk", AttrVal.str "RUN#t0#r1"), ("runId", AttrVal.str "r1"),
        ("status", AttrVal.str "triggered"), ("gsi1pk", AttrVal.str "STATUS#triggered"),
        ("gsi1sk", AttrVal.str "TIMESTAMP#t0")] "gsi1sk")) := by
  refine ⟨⟨by decide, update_status_contract.1 [] "mweb" "missing" "passed" [] (by decide)⟩,
    ⟨by decide, by decide, by decide⟩, ?_⟩
  exact update_status_contract.2
    [[("pk", AttrVal.str "BRAND#mweb"), ("sk", AttrVal.str "RUN#t0#r1"),
      ("runId", AttrVal.str "r1"), ("status", AttrVal.str "triggered"),
      ("gsi1pk", AttrVal.str "STATUS#triggered"),
      ("gsi1sk", AttrVal.str "TIMESTAMP#t0")]]
    "mweb" "r1" "passed"
    [("duration", AttrVal.int 120), ("pk", AttrVal.str "EVIL")]
    [("pk", AttrVal.str "BRAND#mweb"), ("sk", AttrVal.str "RUN#t0#r1"),
      ("runId", AttrVal.str "r1"), ("status", AttrVal.str "triggered"),
      ("gsi1pk", AttrVal.str "STATUS#triggered"),
      ("gsi1sk", AttrVal.str "TIMESTAMP#t0")]
    (by decide) (by decide) (by decide)

theorem digitChar_clean : ∀ n : Nat, n < 10 →
    Nat.digitChar n ≠ '-' ∧ Nat.digitChar n ≠ ':' ∧
      Nat.digitChar n ≠ 'T' ∧ Nat.digitChar n ≠ 'Z' := by decide

theorem digitChar_injOn : ∀ a : Nat, a < 10 → ∀ b : Nat, b < 10 →
    Nat.digitChar a = Nat.digitChar b → a = b := by decide

theorem normalizeChars_render (a b c d e f g h i j k l m n : Nat)
    (ha : a < 10) (hb : b < 10) (hc : c < 10) (hd : d < 10) (he : e < 10)
    (hf : f < 10) (hg : g < 10) (hh : h < 10) (hi : i < 10) (hj : j < 10)
    (hk : k < 10) (hl : l < 10) (hm : m < 10) (hn : n < 10) :
    normalizeChars [Nat.digitChar a, Nat.digitChar b, Nat.digitChar c, Nat.digitChar d,
      '-', Nat.digitChar e, Nat.digitChar f, '-', Nat.digitChar g, Nat.digitChar h,
      'T', Nat.digitChar i, Nat.digitChar j, ':', Nat.digitChar k, Nat.digitChar l,
      ':', Nat.digitChar m, Nat.digitChar n, 'Z'] =
    [Nat.digitChar a, Nat.digitChar b, Nat.digitChar c, Nat.digitChar d,
      Nat.digitChar e, Nat.digitChar f, Nat.digitChar g, Nat.digitChar h, '_',
      Nat.digitChar i, Nat.digitChar j, Nat.digitChar k, Nat.digitChar l,
      Nat.digitChar m, Nat.digitChar n] := by
  obtain ⟨a1, a2, a3, a4⟩ := digitChar_clean a ha
  obtain ⟨b1, b2, b3, b4⟩ := digitChar_clean b hb
  obtain ⟨c1, c2, c3, c4⟩ := digitChar_clean c hc
  obtain ⟨d1, d2, d3, d4⟩ := digitChar_clean d hd
  obtain ⟨e1, e2, e3, e4⟩ := digitChar_clean e he
  obtain ⟨f1, f2, f3, f4⟩ := digitChar_clean f hf
  obtain ⟨g1, g2, g3, g4⟩ := digitChar_clean g hg
  obtain ⟨h1, h2, h3, h4⟩ := digitChar_clean h hh
  obtain ⟨i1, i2, i3, i4⟩ := digitChar_clean i hi
  obtain ⟨j1, j2, j3, j4⟩ := digitChar_clean j hj
  obtain ⟨k1, k2, k3, k4⟩ := digitChar_clean k hk
  obtain ⟨l1, l2, l3, l4⟩ := digitChar_clean l hl
  obtain ⟨m1, m2, m3, m4⟩ := digitChar_clean m hm
  obtain ⟨n1, n2, n3, n4⟩ := digitChar_clean n hn
  have sA : ('T' : Char) ≠ '-' := by decide
  have sB : (':' : Char) ≠ '-' := by decide
  have sC : ('Z' : Char) ≠ '-' := by decide
  have sD : ('T' : Char) ≠ ':' := by decide
  have sE : ('Z' : Char) ≠ ':' := by decide
  have sF : ('Z' : Char) ≠ 'T' := by decide
  have sG : ('_' : Char) ≠ 'Z' := by decide
  simp only [normalizeChars, removeChar, substChar,
    a1, a2, a3, a4, b1, b2, b3, b4, c1, c2, c3, c4, d1, d2, d3, d4,
    e1, e2, e3, e4, f1, f2, f3, f4, g1, g2, g3, g4, h1, h2, h3, h4,
    i1, i2, i3, i4, j1, j2, j3, j4, k1, k2, k3, k4, l1, l2, l3, l4,
    m1, m2, m3, m4, n1, n2, n3, n4, sA, sB, sC, sD, sE, sF, sG,
    if_neg, if_pos, ite_true, ite_false, if_true, if_false]
  rfl

theorem timestamp_for_s3_render (y mo d h mi s : Nat)
    (hy : y < 10000) (hmo : mo < 100) (hd : d < 100)
    (hh : h < 100) (hmi : mi < 100) (hs : s < 100) :
    timestamp_for_s3 (renderIsoZ y mo d h mi s) = compactSeg y mo d h mi s := by
  have b1 : y / 1000 < 10 := by omega
  have b2 : y / 100 % 10 < 10 := by omega
  have b3 : y / 10 % 10 < 10 := by omega
  have b4 : y % 10 < 10 := by omega
  have b5 : mo / 10 < 10 := by omega
  have b6 : mo % 10 < 10 := by omega
  have b7 : d / 10 < 10 := by omega
  have b8 : d % 10 < 10 := by omega
  have b9 : h / 10 < 10 := by omega
  have b10 : h % 10 < 10 := by omega
  have b11 : mi / 10 < 10 := by omega
  have b12 : mi % 10 < 10 := by omega
  have b13 : s / 10 < 10 := by omega
  have b14 : s % 10 < 10 := by omega
  unfold timestamp_for_s3 renderIsoZ compactSeg
  apply congrArg String.mk
  show normalizeChars (pad4 y ++ ['-'] ++ pad2 mo ++ ['-'] ++ pad2 d ++ ['T'] ++
    pad2 h ++ [':'] ++ pad2 mi ++ [':'] ++ pad2 s ++ ['Z']) = _
  simp only [pad4, pad2, List.cons_append, List.nil_append]
  exact normalizeChars_render _ _ _ _ _ _ _ _ _ _ _ _ _ _
    b1 b2 b3 b4 b5 b6 b7 b8 b9 b10 b11 b12 b13 b14

/-- C9 (amended).  The timestamp-to-path normalization is deterministic and
maps 2025-06-03T14:00:00Z to 20250603_140000; on canonical UTC
second-resolution timestamps (the `YYYY-MM-DDTHH:MM:SSZ` form) the
15-character segment determines the six timestamp fields, so the
transformation is injective on that form.  It is NOT injective across all
valid second-resolution ISO-8601 timestamps: distinct UTC-offset
representations can collide (see the counterexample). -/
theorem timestamp_normalization_spec :
    timestamp_for_s3 "2025-06-03T14:00:00Z" = "20250603_140000" ∧
    (∀ y mo d h mi s y' mo' d' h' mi' s' : Nat,
      y < 10000 → mo < 100 → d < 100 → h < 100 → mi < 100 → s < 100 →
      y' < 10000 → mo' < 100 → d' < 100 → h' < 100 → mi' < 100 → s' < 100 →
      timestamp_for_s3 (renderIsoZ y mo d h mi s) =
        timestamp_for_s3 (renderIsoZ y' mo' d' h' mi' s') →
      y = y' ∧ mo = mo' ∧ d = d' ∧ h = h' ∧ mi = mi' ∧ s = s') := by
  refine ⟨by decide, ?_⟩
  intro y mo d h mi s y' mo' d' h' mi' s'
  intro hy hmo hd hh hmi hs hy' hmo' hd' hh' hmi' hs' heq
  rw [timestamp_for_s3_render y mo d h mi s hy hmo hd hh hmi hs,
      timestamp_for_s3_render y' mo' d' h' mi' s' hy' hmo' hd' hh' hmi' hs'] at heq
  have hdata := congrArg String.data heq
  simp only [compactSeg, pad4, pad2, List.cons_append, List.nil_append,
    List.cons.injEq, and_true] at hdata
  obtain ⟨q1, q2, q3, q4, q5, q6, q7, q8, _, q9, q10, q11, q12, q13, q14⟩ := hdata
  have r1 := digitChar_injOn _ (by omega) _ (by omega) q1
  have r2 := digitChar_injOn _ (by omega) _ (by omega) q2
  have r3 := digitChar_injOn _ (by omega) _ (by omega) q3
  have r4 := digitChar_injOn _ (by omega) _ (by omega) q4
  have r5 := digitChar_injOn _ (by omega) _ (by omega) q5
  have r6 := digitChar_injOn _ (by omega) _ (by omega) q6
  have r7 := digitChar_injOn _ (by omega) _ (by omega) q7
  have r8 := digitChar_injOn _ (by omega) _ (by omega) q8
  have r9 := digitChar_injOn _ (by omega) _ (by omega) q9
  have r10 := digitChar_injOn _ (by omega) _ (by omega) q10
  have r11 := digitChar_injOn _ (by omega) _ (by omega) q11
  have r12 := digitChar_injOn _ (by omega) _ (by omega) q12
  have r13 := digitChar_injOn _ (by omega) _ (by omega) q13
  have r14 := digitChar_injOn _ (by omega) _ (by omega) q14
  refine ⟨by omega, by omega, by omega, by omega, by omega, by omega⟩

/-- C9 witness. -/
theorem timestamp_normalization_spec_witness :
    ((2025 : Nat) < 10000 ∧ (6 : Nat) < 100 ∧ (3 : Nat) < 100 ∧ (14 : Nat) < 100 ∧
      (0 : Nat) < 100 ∧ (59 : Nat) < 100 ∧
      timestamp_for_s3 (renderIsoZ 2025 6 3 14 0 59) =
        timestamp_for_s3 (renderIsoZ 2025 6 3 14 0 59)) ∧
    (2025 = 2025 ∧ 6 = 6 ∧ 3 = 3 ∧ 14 = 14 ∧ 0 = 0 ∧ 59 = 59) :=
  ⟨⟨by decide, by decide, by decide, by decide, by decide, by decide, rfl⟩,
    timestamp_normalization_spec.2 2025 6 3 14 0 59 2025 6 3 14 0 59
      (by decide) (by decide) (by decide) (by decide) (by decide) (by decide)
      (by decide) (by decide) (by decide) (by decide) (by decide) (by decide) rfl⟩

/-- C9 counterexample.  Two distinct valid second-resolution ISO-8601
timestamps — denoting instants two hours apart — normalize to the same
15-character segment, so the transformation is not injective on all valid
second-resolution inputs and the segment does not determine the original
timestamp: the truncation to 15 characters discards the UTC-offset suffix. -/
theorem timestamp_normalization_counterexample :
    isSecondResIso "2025-06-03T14:00:00Z" = true ∧
    isSecondResIso "2025-06-03T14:00:00+02:00" = true ∧
    "2025-06-03T14:00:00Z" ≠ "2025-06-03T14:00:00+02:00" ∧
    parseTs "2025-06-03T14:00:00Z" = some 1748959200 ∧
    parseTs "2025-06-03T14:00:00+02:00" = some 1748952000 ∧
    timestamp_for_s3 "2025-06-03T14:00:00Z" = "20250603_140000" ∧
    timestamp_for_s3 "2025-06-03T14:00:00+02:00" = "20250603_140000" := by
  refine ⟨by decide, by decide, by decide, by decide, by decide, by decide, by decide⟩

end HGC
